import Mathlib

/-!
Formal model of the qwish yearly-notification service: the next-fire time
resolver (`utils/notify.ts`), the queue producer (`queues/greeter.ts`), the
due-event scheduler (`handlers/scheduler.ts`), the delivery worker
(`handlers/sender.ts` inside `updateUser.ts`), the DLQ processor and health
monitor (`handlers/dlqProcessor.ts`, `handlers/healthCheck.ts`), and the SQS
helper (`lib/sqs.ts`).  Timestamps are modelled as integer epoch
milliseconds; the DynamoDB event item is a record with optional attributes
mirrored as `Option` fields; external calls (store reads, conditional
writes, HTTP, queue operations) are modelled by explicit environments and
effect traces.
-/

namespace Qwish

/-! ## Calendar arithmetic (UTC)

Proleptic-Gregorian day arithmetic underlying the ISO timestamps produced
and compared by the dayjs calls in the source.  `daysFromCivil` is the
standard civil-from-date algorithm giving days since 1970-01-01, and
`utcYearOf` recovers the civil year of an epoch-millisecond instant, which
is what `dayjs(referenceIso).year()` returns on a UTC host. -/

/-- Days since 1970-01-01 of the Gregorian date `y-m-d`. -/
def daysFromCivil (y m d : Int) : Int :=
  let yy : Int := if m ≤ 2 then y - 1 else y
  let era : Int := yy / 400
  let yoe : Int := yy - era * 400
  let mp : Int := (m + 9) % 12
  let doy : Int := (153 * mp + 2) / 5 + d - 1
  let doe : Int := yoe * 365 + yoe / 4 - yoe / 100 + doy
  era * 146097 + doe - 719468

/-- Epoch milliseconds of the UTC datetime `y-m-d hh:mi`. -/
def utcMillisOfDateTime (y m d hh mi : Int) : Int :=
  (daysFromCivil y m d * 86400 + hh * 3600 + mi * 60) * 1000

/-- Epoch milliseconds of Jan 1st, 00:00 UTC of year `y`. -/
def startOfYearMillis (y : Int) : Int :=
  utcMillisOfDateTime y 1 1 0 0

/-- Civil (UTC) year of an epoch-millisecond instant, as `dayjs(t).year()`
computes it on a UTC host (year part of the civil-from-days algorithm). -/
def utcYearOf (t : Int) : Int :=
  let z : Int := t / 86400000 + 719468
  let era : Int := z / 146097
  let doe : Int := z - era * 146097
  let yoe : Int := (doe - doe / 1460 + doe / 36524 - doe / 146096) / 365
  let y : Int := yoe + era * 400
  let doy : Int := doe - (365 * yoe + yoe / 4 - yoe / 100)
  let mp : Int := (5 * doy + 2) / 153
  let m : Int := mp + (if mp < 10 then 3 else -9)
  y + (if m ≤ 2 then 1 else 0)

/-! ## Time resolver (`src/utils/notify.ts`, reference-taking variant)

The timezone library call
`dayjs.tz(birthdayInYear(year) ++ "T" ++ notifyLocalTime, tz).utc()` is
abstracted as a function `localToUtc : year ↦ instant` resolving the
event's month/day at the local wall-clock time in a given year.  The code
then compares with `dayjs(notifyUtc).isBefore(now)`, a strict
millisecond-order comparison. -/

/-- Embeds `computeNotifyUtc(birthday, tz, notifyLocalTime, referenceIso)`:
take the reference's year, resolve the candidate in that year, and move to
the next year only when the candidate `isBefore` (strictly earlier than)
the reference. -/
def computeNotifyUtc (localToUtc : Int → Int) (reference : Int) : Int :=
  let year := utcYearOf reference
  let candidate := localToUtc year
  if candidate < reference then localToUtc (year + 1) else candidate

/-- The month/day-at-local-time resolver for the timezone "UTC" (offset
zero): year `y` maps to `y-m-d hh:mi` UTC. -/
def utcResolver (m d hh mi : Int) : Int → Int :=
  fun y => utcMillisOfDateTime y m d hh mi

/-! ## Data model (`src/types.ts`) -/

/-- Values of `MessageSendingStatus`. -/
inductive MessageSendingStatus
  | pending
  | sending
  | completed
  | failed
deriving DecidableEq, Repr

/-- The flattened DynamoDB event item (event branch of `DynamoDBUserItem`).
`lastSentYear` is a required attribute (written as `0` at creation);
the status/bookkeeping attributes are optional. -/
structure EventItem where
  date : String
  notifyLocalTime : String
  notifyUtc : Int
  lastSentYear : Int
  sendingStatus : Option MessageSendingStatus
  sendingAttemptedAt : Option Int
  sendingCompletedAt : Option Int
  markedFailedAt : Option Int
  failureReason : Option String
  webhookResponseCode : Option Int
  webhookDeliveredAt : Option Int
  updatedAt : Int
deriving DecidableEq, Repr

/-- User metadata (`User` in `types.ts`, name/timezone fields). -/
structure User where
  id : String
  firstName : String
  lastName : String
  timezone : String
deriving DecidableEq, Repr

/-- The partition key `USER#<id>` built by `flattenUserToDynamoDBItems`
and the CRUD handlers. -/
def userPK (id : String) : String :=
  "USER#" ++ id

/-! ## Queue producer (`src/queues/greeter.ts`) -/

/-- The queue message body (`GreeterMessage`): user fields plus the
event's keys and scheduling data. -/
structure GreeterMessage where
  id : String
  firstName : String
  lastName : String
  timezone : String
  pk : String
  sk : String
  eventType : String
  eventDate : String
  notifyLocalTime : String
  lastSentYear : Int
  yearNow : Int
deriving DecidableEq, Repr

/-- The event argument of `enqueueGreeterMessage`. -/
structure EventForQueue where
  pk : String
  sk : String
  type : String
  date : String
  notifyLocalTime : String
  lastSentYear : Int
deriving DecidableEq, Repr

/-- An SQS `SendMessageCommand` as issued to the greeter FIFO queue. -/
structure SqsSend where
  messageBody : GreeterMessage
  messageGroupId : String
  messageDeduplicationId : String
deriving DecidableEq, Repr

/-- Embeds `enqueueGreeterMessage(user, event)`: builds the message body
and sends with `MessageGroupId = event.type` and
`MessageDeduplicationId = user.id ++ "-" ++ event.type ++ "-" ++ yearNow`
(`yearNow` is `new Date().getFullYear()` at enqueue time, passed here
explicitly). -/
def enqueueGreeterMessage (user : User) (ev : EventForQueue) (yearNow : Int) : SqsSend :=
  { messageBody :=
      { id := user.id
        firstName := user.firstName
        lastName := user.lastName
        timezone := user.timezone
        pk := ev.pk
        sk := ev.sk
        eventType := ev.type
        eventDate := ev.date
        notifyLocalTime := ev.notifyLocalTime
        lastSentYear := ev.lastSentYear
        yearNow := yearNow }
    messageGroupId := ev.type
    messageDeduplicationId := user.id ++ "-" ++ ev.type ++ "-" ++ toString yearNow }

/-! ## Sender state machine (`sender` in `src/handlers/updateUser.ts`) -/

/-- `STUCK_TIMEOUT_MS` of the sender: 5 minutes in milliseconds. -/
def stuckTimeoutSenderMs : Int := 5 * 60 * 1000

/-- The `failureReason` written when the sender unsticks a stale
`sending` record. -/
def stuckReasonSender : String :=
  "Stuck in sending state - likely webhook timeout or Lambda crash"

/-- The `Idempotency-Key` header value of the sender's webhook POST:
`pk ++ "-" ++ eventType ++ "-" ++ yearNow`. -/
def senderIdempotencyKey (msg : GreeterMessage) : String :=
  msg.pk ++ "-" ++ msg.eventType ++ "-" ++ toString msg.yearNow

/-- The stuck-recovery `UpdateCommand`:
`SET sendingStatus = failed, markedFailedAt = now, failureReason = reason, updatedAt = now`. -/
def applyMarkStuckFailed (now : Int) (e : EventItem) : EventItem :=
  { e with
    sendingStatus := some .failed
    markedFailedAt := some now
    failureReason := some stuckReasonSender
    updatedAt := now }

/-- The Phase-1 claim `UpdateCommand`'s SET clause:
`sendingStatus = sending, sendingAttemptedAt = now, lastSentYear = yearNow,
notifyUtc = nextNotifyUtc, updatedAt = now`. -/
def applyClaim (yearNow notifyUtc now : Int) (e : EventItem) : EventItem :=
  { e with
    sendingStatus := some .sending
    sendingAttemptedAt := some now
    lastSentYear := yearNow
    notifyUtc := notifyUtc
    updatedAt := now }

/-- The webhook-failure `UpdateCommand`:
`SET sendingStatus = failed, updatedAt = now` (no other attribute). -/
def applyWebhookFailed (now : Int) (e : EventItem) : EventItem :=
  { e with
    sendingStatus := some .failed
    updatedAt := now }

/-- The Phase-3 completion `UpdateCommand`:
`SET sendingStatus = completed, sendingCompletedAt = now,
webhookResponseCode = code, webhookDeliveredAt = now, updatedAt = now`. -/
def applyCompleted (code now : Int) (e : EventItem) : EventItem :=
  { e with
    sendingStatus := some .completed
    sendingCompletedAt := some now
    webhookResponseCode := some code
    webhookDeliveredAt := some now
    updatedAt := now }

/-- The status half of the claim's `ConditionExpression`:
`attribute_not_exists(sendingStatus) OR sendingStatus IN (pending, failed)`. -/
def statusAllowsClaim : Option MessageSendingStatus → Bool
  | none => true
  | some .pending => true
  | some .failed => true
  | some .sending => false
  | some .completed => false

/-- The claim's full `ConditionExpression`, evaluated against the item
stored at the instant the conditional write executes:
`lastSentYear = currentLastSentYear AND (status absent OR IN (pending, failed))`. -/
def claimCondition (stored : EventItem) (currentLastSentYear : Int) : Bool :=
  (stored.lastSentYear == currentLastSentYear) && statusAllowsClaim stored.sendingStatus

/-- The Phase-1 conditional write: returns the updated item when the
condition holds, `none` for a `ConditionalCheckFailedException`. -/
def phase1Claim (stored : EventItem) (currentLastSentYear yearNow notifyUtc now : Int) :
    Option EventItem :=
  if claimCondition stored currentLastSentYear then
    some (applyClaim yearNow notifyUtc now stored)
  else none

/-- Outcome of the sender's pre-step checks on the loaded item. -/
inductive PreCheck
  | dropDuplicate
  | dropInFlight
  | proceed (e : EventItem)
deriving DecidableEq, Repr

/-- The sender's pre-step on the loaded item `e0`: the duplicate guard
(`lastSentYear ≥ yearNow && sendingStatus === completed`), then the stuck
guard (`sendingStatus === sending && sendingAttemptedAt` with the 5-minute
elapsed test); an over-timeout record is best-effort marked failed
(`markStuckOk` is whether that write succeeds) and processing proceeds. -/
def preCheck (now yearNow : Int) (markStuckOk : Bool) (e0 : EventItem) : PreCheck :=
  if e0.lastSentYear ≥ yearNow ∧ e0.sendingStatus = some .completed then
    .dropDuplicate
  else
    match e0.sendingStatus, e0.sendingAttemptedAt with
    | some .sending, some t =>
      if now - t < stuckTimeoutSenderMs then .dropInFlight
      else .proceed (if markStuckOk then applyMarkStuckFailed now e0 else e0)
    | _, _ => .proceed e0

/-- Environment of one sender message: the loaded item, possible
interference by other workers between the read and the conditional claim,
the timezone library's next-fire resolution (`resolver y` is the
`dayjs.tz` result for the event's month/day at the local time in year
`y`), failure injection for the store writes, the webhook response
(`none` models a thrown fetch), and the captured clock. -/
structure SenderEnv where
  itemAtGet : Option EventItem
  interference : Option EventItem
  resolver : Int → Int
  claimTransient : Bool
  webhookStatus : Option Int
  markStuckOk : Bool
  markFailedOk : Bool
  completeOk : Bool
  now : Int

/-- The item the store holds when the claim's conditional write runs:
the pre-step result unless another worker interfered. -/
def storedAtClaim (env : SenderEnv) (e1 : EventItem) : EventItem :=
  env.interference.getD e1

/-- A webhook POST issued by the sender (identified by its
`Idempotency-Key` header). -/
structure WebhookCall where
  idempotencyKey : String
deriving DecidableEq, Repr

/-- How processing of one queue record ends. -/
inductive SenderOutcome
  | droppedMissing
  | droppedDuplicate
  | droppedInFlight
  | droppedLostRace
  | raised
  | completedRun
deriving DecidableEq, Repr

/-- Result of processing one queue record: the outcome, the final state of
the event item, and the webhook calls made. -/
structure SenderRun where
  outcome : SenderOutcome
  finalItem : Option EventItem
  webhookCalls : List WebhookCall
deriving DecidableEq, Repr

/-- Embeds the body of the sender's per-record loop: load the item
(missing → drop), run the pre-step checks, compute next year's
`notifyUtc` (`resolver (yearNow + 1)`), run the Phase-1 conditional claim
(transient store failure → raise; condition failure → drop without
webhook), POST the webhook, and on non-200 best-effort mark failed then
raise, on 200 mark completed without raising even when that write fails. -/
def processRecord (env : SenderEnv) (msg : GreeterMessage) : SenderRun :=
  match env.itemAtGet with
  | none => ⟨.droppedMissing, none, []⟩
  | some e0 =>
    match preCheck env.now msg.yearNow env.markStuckOk e0 with
    | .dropDuplicate => ⟨.droppedDuplicate, some e0, []⟩
    | .dropInFlight => ⟨.droppedInFlight, some e0, []⟩
    | .proceed e1 =>
      let nextNotifyUtc := env.resolver (msg.yearNow + 1)
      let stored := storedAtClaim env e1
      if env.claimTransient then ⟨.raised, some stored, []⟩
      else
        match phase1Claim stored e0.lastSentYear msg.yearNow nextNotifyUtc env.now with
        | none => ⟨.droppedLostRace, some stored, []⟩
        | some e2 =>
          let call : WebhookCall := ⟨senderIdempotencyKey msg⟩
          match env.webhookStatus with
          | none => ⟨.raised, some e2, [call]⟩
          | some status =>
            if status ≠ 200 then
              ⟨.raised, some (if env.markFailedOk then applyWebhookFailed env.now e2 else e2),
                [call]⟩
            else
              ⟨.completedRun, some (if env.completeOk then applyCompleted status env.now e2 else e2),
                [call]⟩

/-! ## Scheduler sweep (`src/handlers/scheduler.ts`) -/

/-- An event row as returned by the due-events GSI query. -/
structure EventRow where
  PK : String
  SK : String
  type : String
  date : String
  notifyLocalTime : String
  lastSentYear : Option Int
deriving DecidableEq, Repr

/-- A DynamoDB operation issued against the users table.  `updateItem`
carries the item transformation an `UpdateCommand` would apply. -/
inductive DbOp
  | queryDuePage (pageNumber : Nat)
  | getItem (pk sk : String)
  | updateItem (pk sk : String) (f : Option EventItem → Option EventItem)

/-- Whether a `DbOp` leaves every stored item unchanged. -/
def isReadOnlyOp : DbOp → Bool
  | .queryDuePage _ => true
  | .getItem _ _ => true
  | .updateItem _ _ _ => false

/-- The table contents, keyed by (PK, SK). -/
def Store : Type := String → String → Option EventItem

/-- Applies one operation to the store: queries and reads change nothing;
an update rewrites the addressed item. -/
def applyDbOp (store : Store) : DbOp → Store
  | .queryDuePage _ => store
  | .getItem _ _ => store
  | .updateItem pk sk f =>
    fun p s => if p = pk ∧ s = sk then f (store pk sk) else store p s

/-- Applies a trace of operations left to right. -/
def applyDbOps (ops : List DbOp) (store : Store) : Store :=
  ops.foldl applyDbOp store

/-- Scheduler environment: the successive pages the due-events query
returns, an optional page index whose query throws (aborting the sweep),
the `METADATA` lookup, which enqueues succeed, and the captured
`currentYear`. -/
structure SchedulerEnv where
  pages : List (List EventRow)
  queryFailsAt : Option Nat
  userMeta : String → Option User
  enqueueOk : EventRow → Bool
  currentYear : Int

/-- Per-item work of one page: a `METADATA` read per row; missing metadata
is skipped, an enqueue failure is counted, otherwise the greeter message
is enqueued.  Returns (db reads, sends, enqueued count, failure count). -/
def processPageItems (env : SchedulerEnv) : List EventRow → List DbOp × List SqsSend × Nat × Nat
  | [] => ([], [], 0, 0)
  | row :: rest =>
    let r := processPageItems env rest
    let getOp := DbOp.getItem row.PK "METADATA"
    match env.userMeta row.PK with
    | none => (getOp :: r.1, r.2.1, r.2.2.1, r.2.2.2)
    | some user =>
      if env.enqueueOk row then
        (getOp :: r.1,
          enqueueGreeterMessage user
            ⟨row.PK, row.SK, row.type, row.date, row.notifyLocalTime, row.lastSentYear.getD 0⟩
            env.currentYear :: r.2.1,
          r.2.2.1 + 1, r.2.2.2)
      else
        (getOp :: r.1, r.2.1, r.2.2.1, r.2.2.2 + 1)

/-- Result of one scheduler sweep: the operation trace, the enqueued
messages, the counters, and whether a page-read failure aborted it. -/
structure SchedulerRun where
  dbOps : List DbOp
  sends : List SqsSend
  enqueued : Nat
  enqueueFailures : Nat
  pagesRead : Nat
  aborted : Bool

/-- The page loop: issue the page query (a throwing query aborts the
sweep), process the page's items, continue while a pagination key
remains. -/
def schedulerGo (env : SchedulerEnv) : List (List EventRow) → Nat → SchedulerRun
  | [], _ => ⟨[], [], 0, 0, 0, false⟩
  | page :: rest, k =>
    if env.queryFailsAt = some k then
      ⟨[.queryDuePage k], [], 0, 0, 1, true⟩
    else
      let p := processPageItems env page
      let r := schedulerGo env rest (k + 1)
      ⟨.queryDuePage k :: p.1 ++ r.dbOps, p.2.1 ++ r.sends,
        p.2.2.1 + r.enqueued, p.2.2.2 + r.enqueueFailures,
        1 + r.pagesRead, r.aborted⟩

/-- Embeds one invocation of `scheduler`: sweep all pages of the
due-events index from page 0. -/
def schedulerSweep (env : SchedulerEnv) : SchedulerRun :=
  schedulerGo env env.pages 0

/-! ## SQS helper (`src/lib/sqs.ts`) -/

/-- Embeds `getMessageCount`: the `GetQueueAttributesCommand` either
throws (`Except.error`) or returns an optional
`ApproximateNumberOfMessages`; a missing attribute parses as `0`, and
every thrown error is caught and turned into `0`. -/
def getMessageCount (queueAttributes : Except Unit (Option Nat)) : Nat :=
  match queueAttributes with
  | .ok attrs => attrs.getD 0
  | .error _ => 0

/-! ## DLQ processor (`src/handlers/dlqProcessor.ts`) -/

/-- A message sitting in the DLQ, with its transport attributes and
failure injection for the send/delete of its redrive. -/
structure DlqMessage where
  body : String
  groupIdAttr : Option String
  dedupIdAttr : Option String
  sendOk : Bool
  deleteOk : Bool
deriving DecidableEq, Repr

/-- A queue-side effect of a DLQ-processor run. -/
inductive QueueEffect
  | depthQuery
  | healthProbe
  | receiveBatch (maxMessages : Nat)
  | sendToMain (groupId dedupId : String)
  | deleteFromDlq (body : String)
deriving DecidableEq, Repr

/-- The `DLQStats` record returned by the processor. -/
structure DlqStats where
  messagesInDLQ : Nat
  messagesProcessed : Nat
  messagesRedriven : Nat
  messagesFailed : Nat
  isServiceHealthy : Bool
deriving DecidableEq, Repr

/-- DLQ-processor environment: the depth query's outcome, the health
probe's HTTP status (`none` models a thrown fetch), the batch the
`ReceiveMessageCommand` returns, and the `redrive-<timestamp>-<random>`
fallback deduplication id. -/
structure DlqEnv where
  queueAttributes : Except Unit (Option Nat)
  healthResponse : Option Int
  dlqMessages : List DlqMessage
  redriveFallbackDedupId : String

/-- Redrive of one received message: send a copy to the main queue with
the preserved (or fallback) group/dedup attributes, then delete it from
the DLQ; a failure of either step counts the message as failed and leaves
it in the DLQ. -/
def redriveOne (fallback : String) (msg : DlqMessage) : List QueueEffect × Nat × Nat :=
  if msg.sendOk then
    let send := QueueEffect.sendToMain (msg.groupIdAttr.getD "birthday")
      (msg.dedupIdAttr.getD fallback)
    if msg.deleteOk then ([send, .deleteFromDlq msg.body], 1, 0)
    else ([send], 0, 1)
  else ([], 0, 1)

/-- Redrive of a received batch, accumulating effects and the
redriven/failed counters. -/
def redriveBatch (fallback : String) : List DlqMessage → List QueueEffect × Nat × Nat
  | [] => ([], 0, 0)
  | msg :: rest =>
    let one := redriveOne fallback msg
    let r := redriveBatch fallback rest
    (one.1 ++ r.1, one.2.1 + r.2.1, one.2.2 + r.2.2)

/-- Embeds one `dlqProcessor` run: query the DLQ depth and return at zero;
probe webhook health and skip the redrive unless the probe returns 200;
otherwise receive up to `min depth 10` messages and redrive each. -/
def dlqProcessor (env : DlqEnv) : DlqStats × List QueueEffect :=
  let depth := getMessageCount env.queueAttributes
  if depth = 0 then
    (⟨0, 0, 0, 0, false⟩, [.depthQuery])
  else
    if env.healthResponse = some 200 then
      let maxToProcess := min depth 10
      let r := redriveBatch env.redriveFallbackDedupId env.dlqMessages
      (⟨depth, r.2.1 + r.2.2, r.2.1, r.2.2, true⟩,
        [.depthQuery, .healthProbe, .receiveBatch maxToProcess] ++ r.1)
    else
      (⟨depth, 0, 0, 0, false⟩, [.depthQuery, .healthProbe])

/-! ## Health monitor (`src/handlers/healthCheck.ts`) -/

/-- The reported overall status. -/
inductive HealthStatus
  | healthy
  | warning
  | critical
deriving DecidableEq, Repr

/-- The status classification over `totalIssues`
(`missedEvents.length + stuckEvents.length`): start from `healthy`, go to
`warning` when `0 < totalIssues < 5`, else to `critical` when
`totalIssues ≥ 5`. -/
def healthStatusOf (totalIssues : Nat) : HealthStatus :=
  if 0 < totalIssues ∧ totalIssues < 5 then .warning
  else if 5 ≤ totalIssues then .critical
  else .healthy

/-- The `status` field of the health-check report, computed from the two
issue counts. -/
def healthReportStatus (missedCount stuckCount : Nat) : HealthStatus :=
  healthStatusOf (missedCount + stuckCount)

/-! ## Concrete sample data (used to instantiate the theorems) -/

/-- A pending birthday event item, last delivered in 2025. -/
def samplePendingItem : EventItem :=
  { date := "1990-06-15"
    notifyLocalTime := "09:00"
    notifyUtc := 1781514000000
    lastSentYear := 2025
    sendingStatus := some .pending
    sendingAttemptedAt := none
    sendingCompletedAt := none
    markedFailedAt := none
    failureReason := none
    webhookResponseCode := none
    webhookDeliveredAt := none
    updatedAt := 0 }

/-- The same event stuck in `sending` since instant 0. -/
def sampleStuckItem : EventItem :=
  { samplePendingItem with
    sendingStatus := some .sending
    sendingAttemptedAt := some 0 }

/-- A greeter message for that event, delivered in 2026. -/
def sampleMsg : GreeterMessage :=
  { id := "u1"
    firstName := "Ada"
    lastName := "Lovelace"
    timezone := "UTC"
    pk := userPK "u1"
    sk := "EVENT#birthday"
    eventType := "birthday"
    eventDate := "1990-06-15"
    notifyLocalTime := "09:00"
    lastSentYear := 2025
    yearNow := 2026 }

/-- A constant next-fire resolution standing in for the timezone library. -/
def sampleResolver : Int → Int := fun _ => 987654

/-- A sender environment where every external call succeeds. -/
def senderEnvOk : SenderEnv :=
  { itemAtGet := some samplePendingItem
    interference := none
    resolver := sampleResolver
    claimTransient := false
    webhookStatus := some 200
    markStuckOk := true
    markFailedOk := true
    completeOk := true
    now := 1000000 }

/-- The same environment with the webhook answering 500. -/
def senderEnvWebhook500 : SenderEnv :=
  { senderEnvOk with webhookStatus := some 500 }

/-- The same environment loading the stuck item, 400 s after its
`sendingAttemptedAt`. -/
def senderEnvStuck : SenderEnv :=
  { senderEnvOk with itemAtGet := some sampleStuckItem, now := 400000 }

/-- The sample user owning the event. -/
def sampleUser : User :=
  { id := "u1", firstName := "Ada", lastName := "Lovelace", timezone := "UTC" }

/-- The sample event as the scheduler hands it to the queue producer. -/
def sampleEventForQueue : EventForQueue :=
  { pk := userPK "u1"
    sk := "EVENT#birthday"
    type := "birthday"
    date := "1990-06-15"
    notifyLocalTime := "09:00"
    lastSentYear := 0 }

/-- A DLQ environment whose depth query reports an empty queue. -/
def dlqEnvEmpty : DlqEnv :=
  { queueAttributes := .ok (some 0)
    healthResponse := some 200
    dlqMessages := []
    redriveFallbackDedupId := "redrive-1-1" }

/-- A DLQ environment whose queue-attributes call throws. -/
def dlqEnvError : DlqEnv :=
  { dlqEnvEmpty with queueAttributes := .error () }

/-! ## Helper lemmas -/

/-- Within a year, no date is earlier than January 1st. -/
theorem daysFromCivil_jan1_le (y m d : Int) (hm1 : 1 ≤ m) (hm2 : m ≤ 12) (hd : 1 ≤ d) :
    daysFromCivil y 1 1 ≤ daysFromCivil y m d := by
  unfold daysFromCivil
  dsimp only
  split <;> split <;> omega

/-- A UTC instant of year `y` is not earlier than the start of year `y`. -/
theorem startOfYearMillis_le (y m d hh mi : Int) (hm1 : 1 ≤ m) (hm2 : m ≤ 12) (hd : 1 ≤ d)
    (hh0 : 0 ≤ hh) (hmi : 0 ≤ mi) :
    startOfYearMillis y ≤ utcMillisOfDateTime y m d hh mi := by
  have h := daysFromCivil_jan1_le y m d hm1 hm2 hd
  unfold startOfYearMillis utcMillisOfDateTime
  omega

/-- The status clause of the claim condition, characterised the way the
specification words it: absent, or neither `sending` nor `completed`. -/
theorem statusAllowsClaim_iff (st : Option MessageSendingStatus) :
    statusAllowsClaim st = true ↔
      (st = none ∨ (st ≠ some .sending ∧ st ≠ some .completed)) := by
  cases st with
  | none => simp [statusAllowsClaim]
  | some s => cases s <;> simp [statusAllowsClaim]

/-- The pre-step returns the duplicate drop exactly on the duplicate
guard's conjunction. -/
theorem preCheck_dropDuplicate_iff (now yearNow : Int) (markStuckOk : Bool) (e0 : EventItem) :
    preCheck now yearNow markStuckOk e0 = .dropDuplicate ↔
      (yearNow ≤ e0.lastSentYear ∧ e0.sendingStatus = some .completed) := by
  unfold preCheck
  split
  · simp_all [ge_iff_le]
  · rename_i h
    constructor
    · intro hmatch
      exfalso
      revert hmatch
      split <;> (try split) <;> simp_all
    · intro hc
      exact absurd hc (by simpa [ge_iff_le] using h)

/-- Once the pre-step proceeds, the run ends in a raise, a lost race, or a
completion, never in a pre-step drop. -/
theorem processRecord_proceed_outcome (env : SenderEnv) (msg : GreeterMessage)
    (e0 e1 : EventItem) (h1 : env.itemAtGet = some e0)
    (h2 : preCheck env.now msg.yearNow env.markStuckOk e0 = .proceed e1) :
    (processRecord env msg).outcome = .raised ∨
    (processRecord env msg).outcome = .droppedLostRace ∨
    (processRecord env msg).outcome = .completedRun := by
  simp only [processRecord, h1, h2]
  split
  · simp
  · split
    · simp
    · split
      · simp
      · split <;> simp

/-- When the run reaches Phase 2 with a webhook response status, the
whole run is determined by that status and the write-failure flags. -/
theorem processRecord_phase2 (env : SenderEnv) (msg : GreeterMessage)
    (e0 e1 : EventItem) (s : Int)
    (h1 : env.itemAtGet = some e0)
    (h2 : preCheck env.now msg.yearNow env.markStuckOk e0 = .proceed e1)
    (h3 : env.claimTransient = false)
    (h4 : claimCondition (storedAtClaim env e1) e0.lastSentYear = true)
    (h5 : env.webhookStatus = some s) :
    processRecord env msg =
      if s = 200 then
        ⟨.completedRun,
          some (if env.completeOk then
              applyCompleted s env.now
                (applyClaim msg.yearNow (env.resolver (msg.yearNow + 1)) env.now
                  (storedAtClaim env e1))
            else
              applyClaim msg.yearNow (env.resolver (msg.yearNow + 1)) env.now
                (storedAtClaim env e1)),
          [⟨senderIdempotencyKey msg⟩]⟩
      else
        ⟨.raised,
          some (if env.markFailedOk then
              applyWebhookFailed env.now
                (applyClaim msg.yearNow (env.resolver (msg.yearNow + 1)) env.now
                  (storedAtClaim env e1))
            else
              applyClaim msg.yearNow (env.resolver (msg.yearNow + 1)) env.now
                (storedAtClaim env e1)),
          [⟨senderIdempotencyKey msg⟩]⟩ := by
  by_cases hs : s = 200 <;>
    simp [processRecord, h1, h2, h3, phase1Claim, h4, h5, hs]

/-- Read-only operations leave the store unchanged. -/
theorem applyDbOps_of_readOnly (ops : List DbOp) (store : Store)
    (h : ops.all isReadOnlyOp = true) : applyDbOps ops store = store := by
  induction ops generalizing store with
  | nil => rfl
  | cons op rest ih =>
    rw [List.all_cons, Bool.and_eq_true] at h
    have hop : applyDbOp store op = store := by
      cases op with
      | queryDuePage _ => rfl
      | getItem _ _ => rfl
      | updateItem _ _ _ => simp [isReadOnlyOp] at h
    calc applyDbOps (op :: rest) store = applyDbOps rest (applyDbOp store op) := rfl
      _ = applyDbOps rest store := by rw [hop]
      _ = store := ih store h.2

/-- Every operation the per-item loop of a page issues is a read. -/
theorem processPageItems_readOnly (env : SchedulerEnv) (rows : List EventRow) :
    (processPageItems env rows).1.all isReadOnlyOp = true := by
  induction rows with
  | nil => rfl
  | cons row rest ih =>
    unfold processPageItems
    cases h : env.userMeta row.PK with
    | none => simp [h, List.all_cons, isReadOnlyOp, ih]
    | some user =>
      simp only [h]
      split <;> simp [List.all_cons, isReadOnlyOp, ih]

/-- Every operation the page loop issues is a read. -/
theorem schedulerGo_readOnly (env : SchedulerEnv) (pages : List (List EventRow)) (k : Nat) :
    (schedulerGo env pages k).dbOps.all isReadOnlyOp = true := by
  induction pages generalizing k with
  | nil => rfl
  | cons page rest ih =>
    unfold schedulerGo
    split
    · simp [List.all_cons, isReadOnlyOp]
    · simp [List.all_cons, List.all_append, isReadOnlyOp,
        processPageItems_readOnly env page, ih (k + 1)]

/-! ## Claim theorems -/

/-- C7: a scheduler sweep never mutates any event record — applying its
operation trace to any store is the identity, and every operation it
issues is a read (an index query or a user-metadata get); its only other
effects are queue enqueues. -/
theorem scheduler_sweep_never_mutates (env : SchedulerEnv) (store : Store) :
    applyDbOps (schedulerSweep env).dbOps store = store ∧
    (schedulerSweep env).dbOps.all isReadOnlyOp = true :=
  ⟨applyDbOps_of_readOnly _ store (schedulerGo_readOnly env env.pages 0),
    schedulerGo_readOnly env env.pages 0⟩

/-- C9: the health report is `healthy` exactly at zero issues, `warning`
exactly between 1 and 4, and `critical` exactly from 5 on. -/
theorem healthReportStatus_classification (missedCount stuckCount : Nat) :
    (healthReportStatus missedCount stuckCount = .healthy ↔ missedCount + stuckCount = 0) ∧
    (healthReportStatus missedCount stuckCount = .warning ↔
      1 ≤ missedCount + stuckCount ∧ missedCount + stuckCount ≤ 4) ∧
    (healthReportStatus missedCount stuckCount = .critical ↔ 5 ≤ missedCount + stuckCount) := by
  unfold healthReportStatus healthStatusOf
  refine ⟨?_, ?_, ?_⟩ <;> split <;> (try split) <;> simp_all <;> omega

/-- C8: the DLQ processor returns at once on zero depth without probing
health, stops after the probe when the probe is not HTTP 200, and issues
a receive, re-enqueue, or delete only when the depth is positive and the
probe returned 200. -/
theorem dlqProcessor_gating (env : DlqEnv) :
    (getMessageCount env.queueAttributes = 0 →
      dlqProcessor env = (⟨0, 0, 0, 0, false⟩, [.depthQuery])) ∧
    (getMessageCount env.queueAttributes ≠ 0 → env.healthResponse ≠ some 200 →
      dlqProcessor env =
        (⟨getMessageCount env.queueAttributes, 0, 0, 0, false⟩, [.depthQuery, .healthProbe])) ∧
    (∀ eff, eff ∈ (dlqProcessor env).2 → eff ≠ .depthQuery → eff ≠ .healthProbe →
      0 < getMessageCount env.queueAttributes ∧ env.healthResponse = some 200) := by
  refine ⟨?_, ?_, ?_⟩
  · intro h0
    unfold dlqProcessor
    simp [h0]
  · intro h0 hh
    unfold dlqProcessor
    simp [h0, hh]
  · intro eff hmem h1 h2
    unfold dlqProcessor at hmem
    by_cases h0 : getMessageCount env.queueAttributes = 0
    · simp [h0] at hmem
      exact absurd hmem h1
    · by_cases hh : env.healthResponse = some 200
      · exact ⟨Nat.pos_of_ne_zero h0, hh⟩
      · simp [h0, hh] at hmem
        rcases hmem with h | h
        · exact absurd h h1
        · exact absurd h h2

/-- C8 witness: at the concrete empty-DLQ environment the processor
performs only the depth query. -/
theorem dlqProcessor_gating_witness :
    getMessageCount dlqEnvEmpty.queueAttributes = 0 ∧
    dlqProcessor dlqEnvEmpty = (⟨0, 0, 0, 0, false⟩, [.depthQuery]) :=
  ⟨rfl, (dlqProcessor_gating dlqEnvEmpty).1 rfl⟩

/-- C10: when the queue-attributes call throws, `getMessageCount` returns
0 instead of propagating, so the DLQ processor takes the empty-queue path:
no health probe, no receive, no redrive. -/
theorem getMessageCount_error_empty_run (env : DlqEnv)
    (h : env.queueAttributes = .error ()) :
    getMessageCount env.queueAttributes = 0 ∧
    dlqProcessor env = (⟨0, 0, 0, 0, false⟩, [.depthQuery]) := by
  have h0 : getMessageCount env.queueAttributes = 0 := by rw [h]; rfl
  refine ⟨h0, ?_⟩
  unfold dlqProcessor
  simp [h0]

/-- C10 witness: the concrete throwing environment. -/
theorem getMessageCount_error_empty_run_witness :
    dlqEnvError.queueAttributes = .error () ∧
    dlqProcessor dlqEnvError = (⟨0, 0, 0, 0, false⟩, [.depthQuery]) :=
  ⟨rfl, (getMessageCount_error_empty_run dlqEnvError rfl).2⟩

/-- C6 counterexample: for the concrete user `u1`, the queue
deduplication id (built from the bare user id) and the webhook
`Idempotency-Key` (built from the message's `pk`, which the scheduler
fills with the partition key `USER#u1`) are different strings. -/
theorem dedupId_idempotencyKey_differ :
    (enqueueGreeterMessage sampleUser sampleEventForQueue 2026).messageBody.pk =
      userPK sampleUser.id ∧
    (enqueueGreeterMessage sampleUser sampleEventForQueue 2026).messageDeduplicationId ≠
      senderIdempotencyKey (enqueueGreeterMessage sampleUser sampleEventForQueue 2026).messageBody := by
  constructor
  · rfl
  · decide

/-- C6 (amended): for a message whose `pk` is the partition key
`USER#<id>` — as the scheduler enqueues them — the sender's
`Idempotency-Key` equals `"USER#"` followed by the producer's
`MessageDeduplicationId`; the two keys share the
`-<event_type>-<year>` tail but differ by that prefix. -/
theorem idempotencyKey_extends_dedupId (user : User) (ev : EventForQueue) (yearNow : Int)
    (h : ev.pk = userPK user.id) :
    senderIdempotencyKey (enqueueGreeterMessage user ev yearNow).messageBody =
      "USER#" ++ (enqueueGreeterMessage user ev yearNow).messageDeduplicationId := by
  simp [senderIdempotencyKey, enqueueGreeterMessage, userPK, h, String.append_assoc]

/-- C1 counterexample: tz "UTC", birthday June 15, local time 09:00,
reference 2026-06-15T09:00:00Z (epoch ms 1781514000000).  The candidate
in the reference's year equals the reference, and `computeNotifyUtc`
returns it unchanged — an instant equal to, not strictly later than, the
reference, and not advanced to the following year. -/
theorem computeNotifyUtc_keeps_equal_candidate :
    utcYearOf 1781514000000 = 2026 ∧
    utcResolver 6 15 9 0 2026 = 1781514000000 ∧
    computeNotifyUtc (utcResolver 6 15 9 0) 1781514000000 = 1781514000000 := by
  decide

/-- C1 (amended): for an offset-zero (UTC) timezone resolution of a valid
month/day and local time, and a reference lying before the start of the
year after its computed year, `computeNotifyUtc` returns an instant no
earlier than the reference; the result is advanced to the following
year's candidate — then strictly later than the reference — exactly when
the current-year candidate is strictly earlier than the reference, and a
candidate exactly equal to the reference is returned unchanged. -/
theorem computeNotifyUtc_reference_comparison (m d hh mi r : Int)
    (hm1 : 1 ≤ m) (hm2 : m ≤ 12) (hd : 1 ≤ d)
    (hh0 : 0 ≤ hh) (hmi : 0 ≤ mi)
    (hy : r < startOfYearMillis (utcYearOf r + 1)) :
    r ≤ computeNotifyUtc (utcResolver m d hh mi) r ∧
    (utcResolver m d hh mi (utcYearOf r) < r →
      computeNotifyUtc (utcResolver m d hh mi) r = utcResolver m d hh mi (utcYearOf r + 1) ∧
        r < computeNotifyUtc (utcResolver m d hh mi) r) ∧
    (r ≤ utcResolver m d hh mi (utcYearOf r) →
      computeNotifyUtc (utcResolver m d hh mi) r = utcResolver m d hh mi (utcYearOf r)) := by
  have hnext : r < utcResolver m d hh mi (utcYearOf r + 1) :=
    lt_of_lt_of_le hy (startOfYearMillis_le (utcYearOf r + 1) m d hh mi hm1 hm2 hd hh0 hmi)
  unfold computeNotifyUtc
  dsimp only
  by_cases hc : utcResolver m d hh mi (utcYearOf r) < r
  · rw [if_pos hc]
    exact ⟨le_of_lt hnext, fun _ => ⟨rfl, hnext⟩, fun hle => absurd hc (not_lt.mpr hle)⟩
  · rw [if_neg hc]
    exact ⟨not_lt.mp hc, fun hlt => absurd hlt hc, fun _ => rfl⟩

/-- C1 witness: June 15 09:00 UTC against the reference
2026-01-02T00:00:00Z. -/
theorem computeNotifyUtc_reference_comparison_witness :
    utcMillisOfDateTime 2026 1 2 0 0 <
      startOfYearMillis (utcYearOf (utcMillisOfDateTime 2026 1 2 0 0) + 1) ∧
    utcMillisOfDateTime 2026 1 2 0 0 ≤
      computeNotifyUtc (utcResolver 6 15 9 0) (utcMillisOfDateTime 2026 1 2 0 0) :=
  ⟨by decide,
    (computeNotifyUtc_reference_comparison 6 15 9 0 (utcMillisOfDateTime 2026 1 2 0 0)
      (by decide) (by decide) (by decide) (by decide) (by decide) (by decide)).1⟩

/-- C2: the Phase-1 claim succeeds exactly when the stored item's
`lastSentYear` equals the value read in the pre-step and its status is
absent or neither `sending` nor `completed`; on success the write sets
`sendingStatus = sending`, `sendingAttemptedAt = now`,
`lastSentYear = yearNow`, and `notifyUtc` to the computed next-year
instant atomically; on a conditional-check failure the sender drops the
message with no webhook call. -/
theorem sender_phase1_claim_spec (env : SenderEnv) (msg : GreeterMessage) (e0 e1 : EventItem)
    (h1 : env.itemAtGet = some e0)
    (h2 : preCheck env.now msg.yearNow env.markStuckOk e0 = .proceed e1)
    (h3 : env.claimTransient = false) :
    ((phase1Claim (storedAtClaim env e1) e0.lastSentYear msg.yearNow
        (env.resolver (msg.yearNow + 1)) env.now).isSome = true ↔
      ((storedAtClaim env e1).lastSentYear = e0.lastSentYear ∧
        ((storedAtClaim env e1).sendingStatus = none ∨
          ((storedAtClaim env e1).sendingStatus ≠ some .sending ∧
            (storedAtClaim env e1).sendingStatus ≠ some .completed)))) ∧
    (∀ e2, phase1Claim (storedAtClaim env e1) e0.lastSentYear msg.yearNow
        (env.resolver (msg.yearNow + 1)) env.now = some e2 →
      e2.sendingStatus = some .sending ∧ e2.sendingAttemptedAt = some env.now ∧
        e2.lastSentYear = msg.yearNow ∧ e2.notifyUtc = env.resolver (msg.yearNow + 1)) ∧
    (claimCondition (storedAtClaim env e1) e0.lastSentYear = false →
      processRecord env msg = ⟨.droppedLostRace, some (storedAtClaim env e1), []⟩) := by
  have hiff : claimCondition (storedAtClaim env e1) e0.lastSentYear = true ↔
      ((storedAtClaim env e1).lastSentYear = e0.lastSentYear ∧
        ((storedAtClaim env e1).sendingStatus = none ∨
          ((storedAtClaim env e1).sendingStatus ≠ some .sending ∧
            (storedAtClaim env e1).sendingStatus ≠ some .completed))) := by
    rw [claimCondition, Bool.and_eq_true, beq_iff_eq, statusAllowsClaim_iff]
  refine ⟨?_, ?_, ?_⟩
  · unfold phase1Claim
    by_cases hc : claimCondition (storedAtClaim env e1) e0.lastSentYear = true
    · rw [if_pos hc]
      simp only [Option.isSome_some, true_iff]
      exact hiff.mp hc
    · rw [if_neg hc]
      simp only [Option.isSome_none, Bool.false_eq_true, false_iff]
      intro h
      exact hc (hiff.mpr h)
  · intro e2 he2
    unfold phase1Claim at he2
    split at he2
    · cases he2
      simp [applyClaim]
    · cases he2
  · intro hc
    simp [processRecord, h1, h2, h3, phase1Claim, hc]

/-- C2 witness: a pending item claimed without interference. -/
theorem sender_phase1_claim_spec_witness :
    senderEnvOk.itemAtGet = some samplePendingItem ∧
    preCheck senderEnvOk.now sampleMsg.yearNow senderEnvOk.markStuckOk samplePendingItem =
      .proceed samplePendingItem ∧
    ((phase1Claim (storedAtClaim senderEnvOk samplePendingItem) samplePendingItem.lastSentYear
        sampleMsg.yearNow (senderEnvOk.resolver (sampleMsg.yearNow + 1)) senderEnvOk.now).isSome =
        true ↔
      ((storedAtClaim senderEnvOk samplePendingItem).lastSentYear =
          samplePendingItem.lastSentYear ∧
        ((storedAtClaim senderEnvOk samplePendingItem).sendingStatus = none ∨
          ((storedAtClaim senderEnvOk samplePendingItem).sendingStatus ≠ some .sending ∧
            (storedAtClaim senderEnvOk samplePendingItem).sendingStatus ≠ some .completed)))) :=
  ⟨rfl, by decide,
    (sender_phase1_claim_spec senderEnvOk sampleMsg samplePendingItem samplePendingItem rfl
      (by decide) rfl).1⟩

/-- C3: with the event record present, the sender drops the message as a
duplicate exactly when `lastSentYear ≥ yearNow` and
`sendingStatus = completed` both hold, and a duplicate drop performs no
webhook call and leaves the item untouched. -/
theorem sender_duplicate_guard (env : SenderEnv) (msg : GreeterMessage) (e0 : EventItem)
    (h1 : env.itemAtGet = some e0) :
    ((processRecord env msg).outcome = .droppedDuplicate ↔
      (msg.yearNow ≤ e0.lastSentYear ∧ e0.sendingStatus = some .completed)) ∧
    ((processRecord env msg).outcome = .droppedDuplicate →
      processRecord env msg = ⟨.droppedDuplicate, some e0, []⟩) := by
  rcases hpc : preCheck env.now msg.yearNow env.markStuckOk e0 with _ | _ | e1
  · have hc := (preCheck_dropDuplicate_iff env.now msg.yearNow env.markStuckOk e0).mp hpc
    constructor
    · simp [processRecord, h1, hpc, hc]
    · intro _
      simp [processRecord, h1, hpc]
  · have hc : ¬ (msg.yearNow ≤ e0.lastSentYear ∧ e0.sendingStatus = some .completed) := by
      intro hcon
      have := (preCheck_dropDuplicate_iff env.now msg.yearNow env.markStuckOk e0).mpr hcon
      rw [hpc] at this
      cases this
    constructor
    · simp [processRecord, h1, hpc, hc]
    · intro habs
      simp [processRecord, h1, hpc] at habs
  · have hc : ¬ (msg.yearNow ≤ e0.lastSentYear ∧ e0.sendingStatus = some .completed) := by
      intro hcon
      have := (preCheck_dropDuplicate_iff env.now msg.yearNow env.markStuckOk e0).mpr hcon
      rw [hpc] at this
      cases this
    have hout := processRecord_proceed_outcome env msg e0 e1 h1 hpc
    constructor
    · constructor
      · intro habs
        rcases hout with h | h | h <;> rw [habs] at h <;> cases h
      · intro hcon
        exact absurd hcon hc
    · intro habs
      rcases hout with h | h | h <;> rw [habs] at h <;> cases h

/-- C3 witness: the completed item is dropped as a duplicate with no
webhook call and no write. -/
theorem sender_duplicate_guard_witness :
    senderEnvOk.itemAtGet = some samplePendingItem ∧
    ((processRecord senderEnvOk sampleMsg).outcome = .droppedDuplicate ↔
      (sampleMsg.yearNow ≤ samplePendingItem.lastSentYear ∧
        samplePendingItem.sendingStatus = some .completed)) :=
  ⟨rfl, (sender_duplicate_guard senderEnvOk sampleMsg samplePendingItem rfl).1⟩

/-- C4 counterexample: with the webhook answering 500, the sender marks
the event failed and raises, but the written item carries no
`failureReason` at all — in particular none containing the status 500. -/
theorem sender_webhook_failure_writes_no_reason :
    (processRecord senderEnvWebhook500 sampleMsg).outcome = .raised ∧
    (processRecord senderEnvWebhook500 sampleMsg).finalItem.map EventItem.sendingStatus =
      some (some .failed) ∧
    (processRecord senderEnvWebhook500 sampleMsg).finalItem.map EventItem.failureReason =
      some none := by
  decide

/-- C4 (amended): on a non-200 webhook response the sender best-effort
marks the event failed — setting only the status, recording no failure
reason — and raises a retriable error; on a 200 response it completes and
does not raise, whether or not the completion write succeeds. -/
theorem sender_webhook_result_handling (env : SenderEnv) (msg : GreeterMessage)
    (e0 e1 : EventItem) (s : Int)
    (h1 : env.itemAtGet = some e0)
    (h2 : preCheck env.now msg.yearNow env.markStuckOk e0 = .proceed e1)
    (h3 : env.claimTransient = false)
    (h4 : claimCondition (storedAtClaim env e1) e0.lastSentYear = true)
    (h5 : env.webhookStatus = some s) :
    (s ≠ 200 →
      (processRecord env msg).outcome = .raised ∧
      (env.markFailedOk = true →
        (processRecord env msg).finalItem.map EventItem.sendingStatus = some (some .failed) ∧
        (processRecord env msg).finalItem.map EventItem.failureReason =
          some (storedAtClaim env e1).failureReason)) ∧
    (s = 200 →
      (processRecord env msg).outcome = .completedRun ∧
      (processRecord env msg).webhookCalls = [⟨senderIdempotencyKey msg⟩]) := by
  have hrun := processRecord_phase2 env msg e0 e1 s h1 h2 h3 h4 h5
  constructor
  · intro hs
    rw [if_neg hs] at hrun
    refine ⟨by rw [hrun], ?_⟩
    intro hm
    rw [hrun, hm]
    simp [applyWebhookFailed, applyClaim]
  · intro hs
    rw [if_pos hs] at hrun
    exact ⟨by rw [hrun], by rw [hrun]⟩

/-- C4 witness: the concrete 500 environment, with the claim-phase
hypotheses discharged. -/
theorem sender_webhook_result_handling_witness :
    claimCondition (storedAtClaim senderEnvWebhook500 samplePendingItem)
      samplePendingItem.lastSentYear = true ∧
    senderEnvWebhook500.webhookStatus = some 500 ∧
    (processRecord senderEnvWebhook500 sampleMsg).outcome = .raised :=
  ⟨by decide, rfl,
    ((sender_webhook_result_handling senderEnvWebhook500 sampleMsg samplePendingItem
        samplePendingItem 500 rfl (by decide) rfl (by decide) rfl).1 (by decide)).1⟩

/-- C5: a record in `sending` with a `sendingAttemptedAt` is dropped when
less than 5 minutes have elapsed (no write, no webhook); from 5 minutes
on, the sender marks it failed with the stuck reason and proceeds to the
claim phase instead of dropping. -/
theorem sender_stuck_handling (env : SenderEnv) (msg : GreeterMessage) (e0 : EventItem) (t : Int)
    (h1 : env.itemAtGet = some e0)
    (h2 : e0.sendingStatus = some .sending)
    (h3 : e0.sendingAttemptedAt = some t) :
    (env.now - t < stuckTimeoutSenderMs →
      processRecord env msg = ⟨.droppedInFlight, some e0, []⟩) ∧
    (stuckTimeoutSenderMs ≤ env.now - t → env.markStuckOk = true →
      preCheck env.now msg.yearNow env.markStuckOk e0 = .proceed (applyMarkStuckFailed env.now e0) ∧
      (applyMarkStuckFailed env.now e0).sendingStatus = some .failed ∧
      (applyMarkStuckFailed env.now e0).failureReason = some stuckReasonSender ∧
      (processRecord env msg).outcome ≠ .droppedInFlight ∧
      (processRecord env msg).outcome ≠ .droppedDuplicate) := by
  have hnodup : ¬ (e0.lastSentYear ≥ msg.yearNow ∧ e0.sendingStatus = some .completed) := by
    rintro ⟨-, hcon⟩
    rw [h2] at hcon
    cases hcon
  constructor
  · intro hlt
    have hpc : preCheck env.now msg.yearNow env.markStuckOk e0 = .dropInFlight := by
      unfold preCheck
      rw [if_neg hnodup, h2, h3]
      dsimp only
      exact if_pos hlt
    simp [processRecord, h1, hpc]
  · intro hge hmk
    have hpc : preCheck env.now msg.yearNow env.markStuckOk e0 =
        .proceed (applyMarkStuckFailed env.now e0) := by
      unfold preCheck
      rw [if_neg hnodup, h2, h3]
      dsimp only
      rw [if_neg (not_lt.mpr hge), hmk]
      simp
    refine ⟨hpc, rfl, rfl, ?_, ?_⟩ <;>
      rcases processRecord_proceed_outcome env msg e0 (applyMarkStuckFailed env.now e0) h1 hpc
        with h | h | h <;>
      rw [h] <;> intro hcon <;> cases hcon

/-- C5 witness: the stuck item, 400 s (over the 5-minute timeout) after
its attempt, is marked failed and processing proceeds. -/
theorem sender_stuck_handling_witness :
    sampleStuckItem.sendingStatus = some .sending ∧
    stuckTimeoutSenderMs ≤ senderEnvStuck.now - 0 ∧
    preCheck senderEnvStuck.now sampleMsg.yearNow senderEnvStuck.markStuckOk sampleStuckItem =
      .proceed (applyMarkStuckFailed senderEnvStuck.now sampleStuckItem) ∧
    (applyMarkStuckFailed senderEnvStuck.now sampleStuckItem).failureReason =
      some stuckReasonSender :=
  ⟨rfl, by decide,
    ((sender_stuck_handling senderEnvStuck sampleMsg sampleStuckItem 0 rfl rfl rfl).2
      (by decide) rfl).1,
    ((sender_stuck_handling senderEnvStuck sampleMsg sampleStuckItem 0 rfl rfl rfl).2
      (by decide) rfl).2.2.1⟩

/-- C6 witness: the concrete user `u1`. -/
theorem idempotencyKey_extends_dedupId_witness :
    sampleEventForQueue.pk = userPK sampleUser.id ∧
    senderIdempotencyKey (enqueueGreeterMessage sampleUser sampleEventForQueue 2026).messageBody =
      "USER#" ++ (enqueueGreeterMessage sampleUser sampleEventForQueue 2026).messageDeduplicationId :=
  ⟨rfl, idempotencyKey_extends_dedupId sampleUser sampleEventForQueue 2026 rfl⟩

end Qwish
